/-
Verification of the upload broker in `src/backend/upload.py` of
secure-multimedia-storage.

The Python module is shallowly embedded below: pure helpers become Lean
functions; the DynamoDB files table becomes an explicit `Store` value
threaded through the operations; the external collaborators (Cognito
token verification, S3 presigned-URL generation, DynamoDB availability,
the wall clock) become an explicit `Env` of oracles.  Machine behaviour
that the claims depend on (MD5, `os.path.splitext`, unconditional
`put_item` overwrite semantics, conditional `update_item`) is modelled
faithfully from the source.
-/
import Mathlib

set_option maxRecDepth 100000

namespace Upload

/-! ### File validation constants (`upload.py` lines 27-34) -/

def MAX_FILE_SIZE : Int := 100 * 1024 * 1024

/-- `ALLOWED_EXTENSIONS`, in Python dict insertion order. -/
def ALLOWED_EXTENSIONS : List (String × List String) :=
  [("image", [".jpg", ".jpeg", ".png", ".gif", ".bmp", ".webp"]),
   ("document", [".pdf", ".doc", ".docx", ".txt", ".rtf", ".odt"]),
   ("video", [".mp4", ".avi", ".mov", ".wmv", ".flv", ".webm"]),
   ("audio", [".mp3", ".wav", ".flac", ".aac", ".ogg"])]

/-- The flattened allow-list built inside `validate_file` (lines 81-83). -/
def allowedExtensionsFlat : List String :=
  (ALLOWED_EXTENSIONS.map Prod.snd).flatten

/-! ### `os.path.splitext` (posixpath semantics, as called on line 79) -/

/-- Python `str.rfind` on a list of characters: highest index holding `c`,
`-1` when absent. -/
def pyRfind (l : List Char) (c : Char) : Int :=
  match l.reverse.findIdx? (· = c) with
  | none => -1
  | some i => (l.length : Int) - 1 - (i : Int)

/-- The extension part of `os.path.splitext`: the suffix from the last dot,
provided that dot lies after the last `/` and the basename does not consist
solely of leading dots up to it. -/
def splitextExt (p : String) : String :=
  let l := p.data
  let sepIndex := pyRfind l '/'
  let dotIndex := pyRfind l '.'
  if dotIndex > sepIndex then
    let between := (l.drop (sepIndex + 1).toNat).take (dotIndex - (sepIndex + 1)).toNat
    if between.any (· ≠ '.') then String.mk (l.drop dotIndex.toNat) else ""
  else ""

/-- Python `str.lower` restricted to ASCII case mapping. -/
def pyLower (s : String) : String := String.mk (s.data.map Char.toLower)

/-- Python `str.split(sep)` for a one-character separator: splits at
every occurrence, keeping empty fields. -/
def splitOnChar (c : Char) : List Char → List (List Char)
  | [] => [[]]
  | x :: xs =>
    if x = c then [] :: splitOnChar c xs
    else
      match splitOnChar c xs with
      | [] => [[x]]
      | h :: t => (x :: h) :: t

/-- Python `str.startswith(p)` via the underlying character lists. -/
def pyStartsWith (s p : String) : Bool := p.data.isPrefixOf s.data

/-! ### Request dictionaries -/

/-- `file_info` dict of the request body; absent keys are `none`
(`dict.get` defaults are applied where the source applies them). -/
structure FileInfo where
  name : Option String
  size : Option Int
  ftype : Option String
deriving DecidableEq, Repr

instance : Inhabited FileInfo := ⟨⟨none, none, none⟩⟩

/-- `metadata` dict of the request body. -/
structure MetaDict where
  title : Option String
  description : Option String
  tags : Option (List String)
deriving DecidableEq, Repr

instance : Inhabited MetaDict := ⟨⟨none, none, none⟩⟩

/-! ### `validate_file` (lines 69-92) -/

def sizeErrMsg : String :=
  "File size exceeds maximum limit of " ++ toString MAX_FILE_SIZE ++ " bytes"

def typeErrMsg (ext : String) : String :=
  "File type " ++ ext ++ " is not allowed"

def nameErrMsg : String := "Invalid filename"

/-- `validate_file(file_info)`: the three rules append independently. -/
def validate_file (file_info : FileInfo) : List String :=
  let filename := file_info.name.getD ""
  let file_extension := pyLower (splitextExt filename)
  (if file_info.size.getD 0 > MAX_FILE_SIZE then [sizeErrMsg] else []) ++
  (if file_extension ∈ allowedExtensionsFlat then [] else [typeErrMsg file_extension]) ++
  (if filename = "" ∨ filename.length > 255 then [nameErrMsg] else [])

/-! ### MD5 (RFC 1321), as used by `hashlib.md5` on line 97

All arithmetic is on `Nat` with explicit reduction modulo `2^32`; a
32-bit bitwise complement of `x < 2^32` is `2^32 - 1 - x`. -/

def md5S : List Nat :=
  [7, 12, 17, 22, 7, 12, 17, 22, 7, 12, 17, 22, 7, 12, 17, 22,
   5, 9, 14, 20, 5, 9, 14, 20, 5, 9, 14, 20, 5, 9, 14, 20,
   4, 11, 16, 23, 4, 11, 16, 23, 4, 11, 16, 23, 4, 11, 16, 23,
   6, 10, 15, 21, 6, 10, 15, 21, 6, 10, 15, 21, 6, 10, 15, 21]

def md5K : List Nat :=
  [0xd76aa478, 0xe8c7b756, 0x242070db, 0xc1bdceee,
   0xf57c0faf, 0x4787c62a, 0xa8304613, 0xfd469501,
   0x698098d8, 0x8b44f7af, 0xffff5bb1, 0x895cd7be,
   0x6b901122, 0xfd987193, 0xa679438e, 0x49b40821,
   0xf61e2562, 0xc040b340, 0x265e5a51, 0xe9b6c7aa,
   0xd62f105d, 0x02441453, 0xd8a1e681, 0xe7d3fbc8,
   0x21e1cde6, 0xc33707d6, 0xf4d50d87, 0x455a14ed,
   0xa9e3e905, 0xfcefa3f8, 0x676f02d9, 0x8d2a4c8a,
   0xfffa3942, 0x8771f681, 0x6d9d6122, 0xfde5380c,
   0xa4beea44, 0x4bdecfa9, 0xf6bb4b60, 0xbebfbc70,
   0x289b7ec6, 0xeaa127fa, 0xd4ef3085, 0x04881d05,
   0xd9d4d039, 0xe6db99e5, 0x1fa27cf8, 0xc4ac5665,
   0xf4292244, 0x432aff97, 0xab9423a7, 0xfc93a039,
   0x655b59c3, 0x8f0ccc92, 0xffeff47d, 0x85845dd1,
   0x6fa87e4f, 0xfe2ce6e0, 0xa3014314, 0x4e0811a1,
   0xf7537e82, 0xbd3af235, 0x2ad7d2bb, 0xeb86d391]

/-- 32-bit left rotation. -/
def rotl32 (x s : Nat) : Nat :=
  ((x <<< s) % 2 ^ 32) ||| (x >>> (32 - s))

/-- Round function of round `i` applied to `(b, c, d)`. -/
def md5F (i b c d : Nat) : Nat :=
  if i < 16 then (b &&& c) ||| ((2 ^ 32 - 1 - b) &&& d)
  else if i < 32 then (d &&& b) ||| ((2 ^ 32 - 1 - d) &&& c)
  else if i < 48 then b ^^^ c ^^^ d
  else c ^^^ (b ||| (2 ^ 32 - 1 - d))

/-- Message-word index of round `i`. -/
def md5G (i : Nat) : Nat :=
  if i < 16 then i
  else if i < 32 then (5 * i + 1) % 16
  else if i < 48 then (3 * i + 5) % 16
  else (7 * i) % 16

/-- Little-endian byte rendering of `n`, `k` bytes. -/
def toLEBytes (k n : Nat) : List Nat :=
  (List.range k).map fun i => n / 256 ^ i % 256

/-- The sixteen little-endian 32-bit words of one 64-byte block. -/
def bytesToWords (block : List Nat) : List Nat :=
  (List.range 16).map fun g =>
    block.getD (4 * g) 0 + 256 * block.getD (4 * g + 1) 0 +
    65536 * block.getD (4 * g + 2) 0 + 16777216 * block.getD (4 * g + 3) 0

/-- One MD5 compression step over a single 64-byte block. -/
def md5ProcessBlock (h : Nat × Nat × Nat × Nat) (block : List Nat) :
    Nat × Nat × Nat × Nat :=
  let M := bytesToWords block
  let step := fun (st : Nat × Nat × Nat × Nat) (i : Nat) =>
    let f := md5F i st.2.1 st.2.2.1 st.2.2.2
    let tmp := (st.1 + f + md5K.getD i 0 + M.getD (md5G i) 0) % 2 ^ 32
    (st.2.2.2, (st.2.1 + rotl32 tmp (md5S.getD i 0)) % 2 ^ 32, st.2.1, st.2.2.1)
  let r := (List.range 64).foldl step h
  ((h.1 + r.1) % 2 ^ 32, (h.2.1 + r.2.1) % 2 ^ 32,
   (h.2.2.1 + r.2.2.1) % 2 ^ 32, (h.2.2.2 + r.2.2.2) % 2 ^ 32)

/-- MD5 padding: `0x80`, zeros to 56 mod 64, then the 64-bit little-endian
bit length. -/
def md5Pad (msg : List Nat) : List Nat :=
  let padZeros := (119 - msg.length % 64) % 64
  msg ++ [0x80] ++ List.replicate padZeros 0 ++ toLEBytes 8 ((8 * msg.length) % 2 ^ 64)

/-- Fold the compression function over the blocks of `l`; `fuel` is the
number of 64-byte blocks remaining. -/
def md5Blocks (h : Nat × Nat × Nat × Nat) (l : List Nat) (fuel : Nat) :
    Nat × Nat × Nat × Nat :=
  match fuel with
  | 0 => h
  | fuel' + 1 => md5Blocks (md5ProcessBlock h (l.take 64)) (l.drop 64) fuel'

/-- The four-word MD5 state of a byte message. -/
def md5Digest (msg : List Nat) : Nat × Nat × Nat × Nat :=
  let padded := md5Pad msg
  md5Blocks (0x67452301, 0xefcdab89, 0x98badcfe, 0x10325476) padded (padded.length / 64)

def hexDigits : List Char := "0123456789abcdef".data

/-- Two lowercase hex characters of one byte. -/
def byteToHex (b : Nat) : List Char :=
  [hexDigits.getD (b / 16 % 16) '0', hexDigits.getD (b % 16) '0']

/-- `hashlib.md5(msg).hexdigest()`: the sixteen digest bytes (each state
word little-endian) rendered as 32 lowercase hex characters. -/
def md5Hexdigest (msg : List Nat) : String :=
  let d := md5Digest msg
  String.mk (((toLEBytes 4 d.1 ++ toLEBytes 4 d.2.1 ++
    toLEBytes 4 d.2.2.1 ++ toLEBytes 4 d.2.2.2).map byteToHex).flatten)

/-- UTF-8 encoding of one character, as `str.encode()` produces it. -/
def utf8EncodeCharNat (c : Char) : List Nat :=
  let v := c.toNat
  if v < 0x80 then [v]
  else if v < 0x800 then
    [0xC0 ||| (v >>> 6), 0x80 ||| (v &&& 0x3F)]
  else if v < 0x10000 then
    [0xE0 ||| (v >>> 12), 0x80 ||| ((v >>> 6) &&& 0x3F), 0x80 ||| (v &&& 0x3F)]
  else
    [0xF0 ||| (v >>> 18), 0x80 ||| ((v >>> 12) &&& 0x3F),
     0x80 ||| ((v >>> 6) &&& 0x3F), 0x80 ||| (v &&& 0x3F)]

/-- `str.encode()` of a whole string. -/
def utf8Bytes (s : String) : List Nat :=
  (s.data.map utf8EncodeCharNat).flatten

/-! ### `generate_file_id` (lines 94-98)

The source reads the clock itself (`datetime.now(timezone.utc).isoformat()`);
the embedding passes that timestamp string explicitly. -/

def generate_file_id (user_id filename timestamp : String) : String :=
  let file_hash := md5Hexdigest (utf8Bytes (user_id ++ filename ++ timestamp))
  user_id ++ "_" ++ String.mk (file_hash.data.take 8)

/-! ### Responses (`create_response`, lines 36-47)

Bodies are modelled structurally as the dictionaries passed to
`json.dumps`: a flat dictionary whose values are strings, numbers,
lists of strings, or one nested flat dictionary (`file_info`). -/

/-- A primitive JSON value inside a nested dictionary. -/
inductive JPrim where
  | pstr (v : String)
  | pnum (v : Int)
  | plist (vs : List String)
deriving DecidableEq, Repr

/-- A JSON value at the top level of a response body. -/
inductive JVal where
  | jstr (v : String)
  | jnum (v : Int)
  | jlist (vs : List String)
  | jdict (fields : List (String × JPrim))
deriving DecidableEq, Repr

structure Response where
  statusCode : Nat
  body : List (String × JVal)
deriving DecidableEq, Repr

def create_response (statusCode : Nat) (body : List (String × JVal)) : Response :=
  ⟨statusCode, body⟩

/-! ### The DynamoDB files table -/

/-- One item of the files table (lines 158-173).  The composite
primary key of the table is `(file_id, user_id)`; both live in the item itself. -/
structure Item where
  file_id : String
  user_id : String
  filename : String
  file_type : String
  file_size : Int
  content_type : String
  s3_key : String
  title : String
  description : String
  tags : List String
  upload_date : String
  last_modified : String
  version : Nat
  status : String
deriving DecidableEq, Repr

/-- The files table: a list of items, at most one per
`(file_id, user_id)` key. -/
def Store := List Item
deriving DecidableEq, Repr

def keyMatches (file_id user_id : String) (it : Item) : Bool :=
  it.file_id == file_id && it.user_id == user_id

/-- The `get_item` call keyed by file id and user id. -/
def getItem (st : Store) (file_id user_id : String) : Option Item :=
  List.find? (keyMatches file_id user_id) st

/-- `table.put_item(Item=item)`: DynamoDB `put_item` carries no condition
here, so it unconditionally replaces any existing item at the same key. -/
def putItem (st : Store) (item : Item) : Store :=
  item :: List.filter (fun it => ¬ keyMatches item.file_id item.user_id it) st

/-! ### The environment of external collaborators -/

/-- Oracles for every external effect the module performs.
`verifyToken` models `verify_token` (lines 49-67): the `jose` decode and
the Cognito `get_user` call collapse every failure to `None`, so the
model returns the verified principal or `none`.  `presignedUrl` models
`s3_client.generate_presigned_url` inside `create_signed_url`
(lines 100-143, arguments `file_id`, `filename`, `user_id`,
`operation`), returning `none` when the call raises.  `dynamoOk` is
false when a DynamoDB call raises an unexpected error.  `now` is
`datetime.now(timezone.utc).isoformat()`. -/
structure Env where
  verifyToken : String → Option String
  presignedUrl : String → String → String → String → Option String
  dynamoOk : Bool
  now : String

/-- `create_signed_url` (lines 100-143): content-type inference then the
presign call; any exception yields `None`. -/
def create_signed_url (env : Env) (file_id filename user_id operation : String) :
    Option String :=
  env.presignedUrl file_id filename user_id operation

/-! ### `store_file_metadata` (lines 145-179) -/

/-- First dict key of `ALLOWED_EXTENSIONS` whose list holds the
extension, else `other` (lines 151-156). -/
def fileTypeOf (file_extension : String) : String :=
  match List.find? (fun p => file_extension ∈ p.2) ALLOWED_EXTENSIONS with
  | some p => p.1
  | none => "other"

/-- Returns `(True, updated table)` on success; when `put_item` raises,
the exception path returns `False` with the table unwritten. -/
def store_file_metadata (env : Env) (st : Store) (file_id user_id filename : String)
    (file_info : FileInfo) (metadata : MetaDict) : Bool × Store :=
  if env.dynamoOk then
    let file_extension := pyLower (splitextExt filename)
    let item : Item :=
      { file_id := file_id
        user_id := user_id
        filename := filename
        file_type := fileTypeOf file_extension
        file_size := file_info.size.getD 0
        content_type := file_info.ftype.getD "application/octet-stream"
        s3_key := "uploads/" ++ user_id ++ "/" ++ file_id ++ "/" ++ filename
        title := metadata.title.getD filename
        description := metadata.description.getD ""
        tags := metadata.tags.getD []
        upload_date := env.now
        last_modified := env.now
        version := 1
        status := "uploading" }
    (true, putItem st item)
  else (false, st)

/-! ### Requests -/

/-- The parsed JSON request body; absent keys are `none`. -/
structure ReqBody where
  operation : Option String
  file_info : Option FileInfo
  metadata : Option MetaDict
  file_id : Option String
deriving DecidableEq, Repr

/-- Outcome of `json.loads` on the body field of the event (an absent
body defaults to an empty dict). -/
inductive BodyParse where
  | malformed
  | parsed (b : ReqBody)
deriving DecidableEq, Repr

/-- An API Gateway event, reduced to the fields the handler reads. -/
structure Event where
  httpMethod : String
  headers : List (String × String)
  body : BodyParse
deriving Repr

/-! ### Operation handlers (lines 222-326) -/

/-- `handle_get_upload_url` (lines 222-248). -/
def handle_get_upload_url (env : Env) (st : Store) (body : ReqBody) (user_id : String) :
    Response × Store :=
  let file_info := body.file_info.getD default
  let metadata := body.metadata.getD default
  let validation_errors := validate_file file_info
  if validation_errors ≠ [] then
    (create_response 400 [("error", JVal.jstr "File validation failed"),
      ("details", JVal.jlist validation_errors)], st)
  else
    let filename := file_info.name.getD ""
    let file_id := generate_file_id user_id filename env.now
    match create_signed_url env file_id filename user_id "put_object" with
    | none => (create_response 500 [("error", JVal.jstr "Failed to generate upload URL")], st)
    | some upload_url =>
      let stored := store_file_metadata env st file_id user_id filename file_info metadata
      if stored.1 then
        (create_response 200 [("upload_url", JVal.jstr upload_url),
          ("file_id", JVal.jstr file_id), ("expires_in", JVal.jnum 3600)], stored.2)
      else
        (create_response 500 [("error", JVal.jstr "Failed to store file metadata")], stored.2)

/-- `handle_complete_upload` (lines 250-279): `update_item` on key
`(file_id, user_id)` with condition `attribute_exists(file_id) AND
user_id = :user_id`; a failed condition raises
`ConditionalCheckFailedException` (404), any other client error is a
500.  The Python `if not file_id` test treats a missing key and an empty
string alike. -/
def handle_complete_upload (env : Env) (st : Store) (body : ReqBody) (user_id : String) :
    Response × Store :=
  let file_id := body.file_id.getD ""
  if file_id = "" then
    (create_response 400 [("error", JVal.jstr "Missing file_id")], st)
  else if env.dynamoOk then
    match getItem st file_id user_id with
    | some it =>
      (create_response 200 [("message", JVal.jstr "Upload completed successfully")],
       putItem st { it with status := "completed", last_modified := env.now })
    | none =>
      (create_response 404 [("error", JVal.jstr "File not found or access denied")], st)
  else
    (create_response 500 [("error", JVal.jstr "Database error")], st)

/-- The 200 body of `handle_get_download_url` (lines 311-322). -/
def mkDownloadResponse (download_url : String) (it : Item) : Response :=
  create_response 200 [("download_url", JVal.jstr download_url),
    ("file_info", JVal.jdict [("filename", JPrim.pstr it.filename),
      ("file_type", JPrim.pstr it.file_type),
      ("file_size", JPrim.pnum it.file_size),
      ("title", JPrim.pstr it.title),
      ("description", JPrim.pstr it.description),
      ("tags", JPrim.plist it.tags)]),
    ("expires_in", JVal.jnum 3600)]

/-- `handle_get_download_url` (lines 281-326): `get_item` on key
`(file_id, user_id)`; a raising DynamoDB call lands in the generic
`except` (500). -/
def handle_get_download_url (env : Env) (st : Store) (body : ReqBody) (user_id : String) :
    Response × Store :=
  let file_id := body.file_id.getD ""
  if file_id = "" then
    (create_response 400 [("error", JVal.jstr "Missing file_id")], st)
  else if env.dynamoOk then
    match getItem st file_id user_id with
    | none => (create_response 404 [("error", JVal.jstr "File not found")], st)
    | some file_item =>
      match create_signed_url env file_id file_item.filename user_id "get_object" with
      | none => (create_response 500 [("error", JVal.jstr "Failed to generate download URL")], st)
      | some download_url => (mkDownloadResponse download_url file_item, st)
  else
    (create_response 500 [("error", JVal.jstr "Internal server error")], st)

/-! ### `handler` (lines 181-220) -/

/-- The main Lambda handler. -/
def handler (env : Env) (st : Store) (event : Event) : Response × Store :=
  if event.httpMethod = "OPTIONS" then
    (create_response 200 [("message", JVal.jstr "OK")], st)
  else
    let auth_header := (event.headers.lookup "Authorization").getD ""
    -- source line 190 returns the 401 early when the prefix check fails;
    -- the two branches are swapped here accordingly
    if pyStartsWith auth_header "Bearer " then
      let token := String.mk ((splitOnChar ' ' auth_header.data).getD 1 [])
      match env.verifyToken token with
      | none => (create_response 401 [("error", JVal.jstr "Invalid or expired token")], st)
      | some user_id =>
        match event.body with
        | BodyParse.malformed =>
          (create_response 400 [("error", JVal.jstr "Invalid JSON in request body")], st)
        | BodyParse.parsed body =>
          let operation := body.operation.getD "get_upload_url"
          if operation = "get_upload_url" then
            handle_get_upload_url env st body user_id
          else if operation = "complete_upload" then
            handle_complete_upload env st body user_id
          else if operation = "get_download_url" then
            handle_get_download_url env st body user_id
          else
            (create_response 400 [("error", JVal.jstr "Invalid operation")], st)
    else
      (create_response 401 [("error", JVal.jstr "Missing or invalid authorization header")], st)

/-! ### Concrete fixtures for evaluations -/

def envOk : Env :=
  { verifyToken := fun t => if t = "tok1" then some "u1" else none
    presignedUrl := fun _ _ _ _ => some "https://s3.example/signed"
    dynamoOk := true
    now := "2024-01-01T00:00:00.000001+00:00" }

def envLater : Env := { envOk with now := "2024-02-02T00:00:00.000001+00:00" }

def envNoUrl : Env := { envOk with presignedUrl := fun _ _ _ _ => none }

def envNoDb : Env := { envOk with dynamoOk := false }

def fiA : FileInfo := ⟨some "a.jpg", some 1024, some "image/jpeg"⟩

def fiB : FileInfo := ⟨some "b.pdf", some 2048, some "application/pdf"⟩

def mdA : MetaDict := ⟨some "First", some "first", some ["x"]⟩

def mdB : MetaDict := ⟨some "Second", some "second", some ["y"]⟩

/-- State after a first create at key `("f1", "u1")`. -/
def stOne : Store := (store_file_metadata envOk [] "f1" "u1" "a.jpg" fiA mdA).2

/-- State after confirming that upload. -/
def stTwo : Store :=
  (handle_complete_upload envOk stOne ⟨none, none, none, some "f1"⟩ "u1").2

/-- State after a second create at the same key `("f1", "u1")`. -/
def stThree : Store := (store_file_metadata envLater stTwo "f1" "u1" "b.pdf" fiB mdB).2

def itemW : Item :=
  { file_id := "f9", user_id := "u1", filename := "w.jpg", file_type := "image"
    file_size := 10, content_type := "image/jpeg", s3_key := "uploads/u1/f9/w.jpg"
    title := "t", description := "", tags := [], upload_date := "2024-01-01"
    last_modified := "2024-01-01", version := 1, status := "completed" }

def bodyDl : ReqBody := ⟨some "get_download_url", none, none, some "f9"⟩

def bodyUp : ReqBody := ⟨none, some fiA, some mdA, none⟩

def evBadAuth : Event :=
  ⟨"POST", [("Authorization", "Token abc")], BodyParse.parsed ⟨none, none, none, none⟩⟩

def evBadToken : Event :=
  ⟨"POST", [("Authorization", "Bearer nope")], BodyParse.parsed ⟨none, none, none, none⟩⟩

def evOptionsGarbage : Event := ⟨"OPTIONS", [("Authorization", "garbage")], BodyParse.malformed⟩

def evNoOp : Event := ⟨"POST", [("Authorization", "Bearer tok1")], BodyParse.parsed bodyUp⟩

/-! ### Helper lemmas -/

theorem getItem_some {st : Store} {fid uid : String} {it : Item}
    (h : getItem st fid uid = some it) : it.file_id = fid ∧ it.user_id = uid := by
  have h2 := List.find?_some h
  simp only [keyMatches, Bool.and_eq_true, beq_iff_eq] at h2
  exact h2

theorem typeErrMsg_ne_nameErrMsg (e : String) : typeErrMsg e ≠ nameErrMsg := by
  intro h
  have hlen := congrArg String.length h
  simp only [typeErrMsg, nameErrMsg, String.length_append,
    show ("File type ").length = 10 from rfl,
    show (" is not allowed").length = 15 from rfl,
    show ("Invalid filename").length = 16 from rfl] at hlen
  omega

theorem sizeErrMsg_ne_nameErrMsg : sizeErrMsg ≠ nameErrMsg := by decide

/-! ### Claims -/

/-- Claim C1: the spec requires a second create at an existing
`(owner_id, file_id)` key to fail and leave the first record unmutated.
The `put_item` call carries no `attribute_not_exists` condition, so
the second create reports success (`True`) and silently replaces the
first record: starting from a store holding the record created for
`("f1", "u1")`, a second `store_file_metadata` for the same key returns
`True` and the stored item afterwards differs from the original
(filename now `"b.pdf"`). -/
theorem duplicate_create_overwrites :
    (store_file_metadata envOk [] "f1" "u1" "a.jpg" fiA mdA).1 = true ∧
    (store_file_metadata envLater stOne "f1" "u1" "b.pdf" fiB mdB).1 = true ∧
    getItem (store_file_metadata envLater stOne "f1" "u1" "b.pdf" fiB mdB).2 "f1" "u1" ≠
      getItem stOne "f1" "u1" ∧
    (getItem (store_file_metadata envLater stOne "f1" "u1" "b.pdf" fiB mdB).2 "f1" "u1").map
      Item.filename = some "b.pdf" := by
  refine ⟨rfl, rfl, ?_, rfl⟩
  decide

/-- Claim C2: the spec requires that no operation ever sets the status
of a record back to `uploading`.  Along the concrete run create → confirm →
create (all at key `("f1", "u1")`), the confirm leaves the record
`completed`, and the second create — accepted because `put_item` is
unconditional — resets the status of that same record to `uploading`. -/
theorem status_reset_by_second_create :
    (getItem stOne "f1" "u1").map Item.status = some "uploading" ∧
    (getItem stTwo "f1" "u1").map Item.status = some "completed" ∧
    (store_file_metadata envLater stTwo "f1" "u1" "b.pdf" fiB mdB).1 = true ∧
    (getItem stThree "f1" "u1").map Item.status = some "uploading" := by
  exact ⟨rfl, rfl, rfl, rfl⟩

/-- Claim C5 (counterexample): two different instants do not always give
two different file ids.  At these two distinct ISO timestamps the MD5
digests of `"u1" ++ "photo.jpg" ++ timestamp` share their first eight
hex characters, so `generate_file_id` yields the identical id
`"u1_af3afa45"` for both. -/
theorem generate_file_id_collision :
    ("2024-01-01T00:00:00.081673+00:00" : String) ≠ "2024-01-01T00:00:00.097774+00:00" ∧
    generate_file_id "u1" "photo.jpg" "2024-01-01T00:00:00.081673+00:00" =
      generate_file_id "u1" "photo.jpg" "2024-01-01T00:00:00.097774+00:00" ∧
    generate_file_id "u1" "photo.jpg" "2024-01-01T00:00:00.081673+00:00" = "u1_af3afa45" := by
  refine ⟨by decide, by decide, by decide⟩

/-- Claim C9 (counterexample): an OPTIONS request is answered with
status 200 but not with an empty body — the handler returns the fixed
body carrying the field `message = OK`, so the half of the claim that
says no body is false. -/
theorem options_response_has_body :
    handler envOk [] ⟨"OPTIONS", [], BodyParse.parsed ⟨none, none, none, none⟩⟩ =
      (create_response 200 [("message", JVal.jstr "OK")], []) ∧
    [("message", JVal.jstr "OK")] ≠ ([] : List (String × JVal)) := by
  exact ⟨rfl, by decide⟩

/-- Claim C5 (amended): every generated file id starts with the owner id
(followed by an underscore), and two calls yield the same id exactly
when the first eight hex characters of the two digests coincide — so
distinct instants alone do not guarantee distinct ids. -/
theorem generate_file_id_shape (owner name t1 t2 : String) :
    (∃ r, generate_file_id owner name t1 = owner ++ "_" ++ r) ∧
    (generate_file_id owner name t1 = generate_file_id owner name t2 ↔
      (md5Hexdigest (utf8Bytes (owner ++ name ++ t1))).data.take 8 =
      (md5Hexdigest (utf8Bytes (owner ++ name ++ t2))).data.take 8) := by
  constructor
  · exact ⟨String.mk ((md5Hexdigest (utf8Bytes (owner ++ name ++ t1))).data.take 8), rfl⟩
  · constructor
    · intro h
      have hd := congrArg String.data h
      simp only [generate_file_id, String.data_append] at hd
      exact List.append_cancel_left hd
    · intro h
      simp only [generate_file_id]
      rw [h]

/-- Claim C6: every declared size above the policy maximum triggers the
size violation, and every size at or below the maximum with an allowed
extension yields a result containing neither a size violation nor any
type violation. -/
theorem validate_size_rule (name : String) (size : Int) (t : Option String) :
    (size > MAX_FILE_SIZE → sizeErrMsg ∈ validate_file ⟨some name, some size, t⟩) ∧
    (size ≤ MAX_FILE_SIZE → pyLower (splitextExt name) ∈ allowedExtensionsFlat →
      sizeErrMsg ∉ validate_file ⟨some name, some size, t⟩ ∧
      ∀ e, typeErrMsg e ∉ validate_file ⟨some name, some size, t⟩) := by
  constructor
  · intro h
    simp only [validate_file, Option.getD_some, List.mem_append]
    left
    left
    rw [if_pos h]
    exact List.mem_singleton_self _
  · intro hle hallow
    have hgt : ¬ (size > MAX_FILE_SIZE) := not_lt.mpr hle
    have hval : validate_file ⟨some name, some size, t⟩ =
        (if name = "" ∨ name.length > 255 then [nameErrMsg] else []) := by
      simp only [validate_file, Option.getD_some]
      rw [if_neg hgt, if_pos hallow]
      simp
    rw [hval]
    by_cases hn : name = "" ∨ name.length > 255
    · rw [if_pos hn]
      refine ⟨?_, ?_⟩
      · intro hmem
        exact sizeErrMsg_ne_nameErrMsg (List.mem_singleton.mp hmem)
      · intro e hmem
        exact typeErrMsg_ne_nameErrMsg e (List.mem_singleton.mp hmem)
    · rw [if_neg hn]
      exact ⟨List.not_mem_nil _, fun e => List.not_mem_nil _⟩

/-- Claim C7: whenever the lower-cased extension of the declared name is
outside the allow-list, the result of `validate_file` contains the type
violation — for every declared size — and, the rules being evaluated
independently, a simultaneously oversized declaration yields both the
size and the type violation together. -/
theorem validate_type_rule (name : String) (size : Int) (t : Option String) :
    pyLower (splitextExt name) ∉ allowedExtensionsFlat →
    typeErrMsg (pyLower (splitextExt name)) ∈ validate_file ⟨some name, some size, t⟩ ∧
    (size > MAX_FILE_SIZE →
      sizeErrMsg ∈ validate_file ⟨some name, some size, t⟩ ∧
      typeErrMsg (pyLower (splitextExt name)) ∈ validate_file ⟨some name, some size, t⟩) := by
  intro hnotin
  have hmem : typeErrMsg (pyLower (splitextExt name)) ∈
      validate_file ⟨some name, some size, t⟩ := by
    simp only [validate_file, Option.getD_some, List.mem_append]
    left
    right
    rw [if_neg hnotin]
    exact List.mem_singleton_self _
  refine ⟨hmem, fun hsz => ⟨?_, hmem⟩⟩
  simp only [validate_file, Option.getD_some, List.mem_append]
  left
  left
  rw [if_pos hsz]
  exact List.mem_singleton_self _

/-- Claim C3: the files table is keyed by `(file_id, user_id)`, so a
`get_item` issued under `owner_a` only ever yields an item whose
`user_id` is `owner_a` — never `owner_b` — and a request-download under
`owner_a` either fails (400/404/500) or returns the download response
built from an item stored under the own key of `owner_a`. -/
theorem owner_isolation (env : Env) (st : Store) (body : ReqBody)
    (owner_a owner_b : String) (hne : owner_a ≠ owner_b) :
    (∀ file_id it, getItem st file_id owner_a = some it →
      it.user_id = owner_a ∧ it.user_id ≠ owner_b) ∧
    (∀ resp st', handle_get_download_url env st body owner_a = (resp, st') →
      resp.statusCode = 200 →
      ∃ it url, getItem st (body.file_id.getD "") owner_a = some it ∧
        it.user_id = owner_a ∧ it.user_id ≠ owner_b ∧
        resp = mkDownloadResponse url it) := by
  constructor
  · intro fid it h
    have h2 := (getItem_some h).2
    exact ⟨h2, h2 ▸ hne⟩
  · intro resp st' h h200
    simp only [handle_get_download_url] at h
    split at h
    · rw [Prod.mk.injEq] at h
      obtain ⟨h1, _⟩ := h
      subst h1
      simp [create_response] at h200
    · split at h
      · split at h
        · rw [Prod.mk.injEq] at h
          obtain ⟨h1, _⟩ := h
          subst h1
          simp [create_response] at h200
        · rename_i file_item hfind
          split at h
          · rw [Prod.mk.injEq] at h
            obtain ⟨h1, _⟩ := h
            subst h1
            simp [create_response] at h200
          · rename_i download_url hurl
            rw [Prod.mk.injEq] at h
            obtain ⟨h1, _⟩ := h
            subst h1
            have h2 := (getItem_some hfind).2
            exact ⟨file_item, download_url, hfind, h2, h2 ▸ hne, rfl⟩
      · rw [Prod.mk.injEq] at h
        obtain ⟨h1, _⟩ := h
        subst h1
        simp [create_response] at h200

/-- Claim C4: in request-upload, a failed capability-URL issuance is
fatal and leaves the store unchanged (no record created); a failed
record creation after URL issuance is still reported as a 500 to the
caller; and the operation answers 200 exactly when validation passed,
the URL was issued and the record was created. -/
theorem request_upload_two_step (env : Env) (st : Store) (body : ReqBody)
    (user_id : String) :
    (validate_file (body.file_info.getD default) = [] →
      create_signed_url env
        (generate_file_id user_id ((body.file_info.getD default).name.getD "") env.now)
        ((body.file_info.getD default).name.getD "") user_id "put_object" = none →
      handle_get_upload_url env st body user_id =
        (create_response 500 [("error", JVal.jstr "Failed to generate upload URL")], st)) ∧
    (∀ url, validate_file (body.file_info.getD default) = [] →
      create_signed_url env
        (generate_file_id user_id ((body.file_info.getD default).name.getD "") env.now)
        ((body.file_info.getD default).name.getD "") user_id "put_object" = some url →
      (store_file_metadata env st
        (generate_file_id user_id ((body.file_info.getD default).name.getD "") env.now)
        user_id ((body.file_info.getD default).name.getD "")
        (body.file_info.getD default) (body.metadata.getD default)).1 = false →
      (handle_get_upload_url env st body user_id).1 =
        create_response 500 [("error", JVal.jstr "Failed to store file metadata")]) ∧
    ((handle_get_upload_url env st body user_id).1.statusCode = 200 ↔
      validate_file (body.file_info.getD default) = [] ∧
      (∃ url, create_signed_url env
        (generate_file_id user_id ((body.file_info.getD default).name.getD "") env.now)
        ((body.file_info.getD default).name.getD "") user_id "put_object" = some url) ∧
      (store_file_metadata env st
        (generate_file_id user_id ((body.file_info.getD default).name.getD "") env.now)
        user_id ((body.file_info.getD default).name.getD "")
        (body.file_info.getD default) (body.metadata.getD default)).1 = true) := by
  refine ⟨?_, ?_, ?_⟩
  · intro hval hurl
    simp [handle_get_upload_url, hval, hurl]
  · intro url hval hurl hstore
    simp [handle_get_upload_url, hval, hurl, hstore]
  · constructor
    · intro h200
      by_cases hval : validate_file (body.file_info.getD default) = []
      · cases hurl : create_signed_url env
            (generate_file_id user_id ((body.file_info.getD default).name.getD "") env.now)
            ((body.file_info.getD default).name.getD "") user_id "put_object" with
        | none =>
          simp [handle_get_upload_url, hval, hurl, create_response] at h200
        | some url =>
          cases hstore : (store_file_metadata env st
              (generate_file_id user_id ((body.file_info.getD default).name.getD "") env.now)
              user_id ((body.file_info.getD default).name.getD "")
              (body.file_info.getD default) (body.metadata.getD default)).1 with
          | false =>
            simp [handle_get_upload_url, hval, hurl, hstore, create_response] at h200
          | true =>
            exact ⟨hval, ⟨url, rfl⟩, rfl⟩
      · simp [handle_get_upload_url, hval, create_response] at h200
    · rintro ⟨hval, ⟨url, hurl⟩, hstore⟩
      simp [handle_get_upload_url, hval, hurl, hstore, create_response]

/-- Claim C8: a non-OPTIONS request whose `Authorization` header is
absent or not of the form `Bearer <token>` is answered 401 with the
store untouched, and the answer is the same whatever the collaborators
would have done (none is contacted); and whenever the collaborator
rejects the extracted token (for any reason — the source collapses
every cause to `None`), the handler returns the one uniform 401
rejection, again with the store untouched. -/
theorem auth_gate (env env' : Env) (st : Store) (event : Event)
    (hm : event.httpMethod ≠ "OPTIONS") :
    (pyStartsWith ((event.headers.lookup "Authorization").getD "") "Bearer " = false →
      handler env st event =
        (create_response 401 [("error", JVal.jstr "Missing or invalid authorization header")], st) ∧
      handler env st event = handler env' st event) ∧
    (pyStartsWith ((event.headers.lookup "Authorization").getD "") "Bearer " = true →
      env.verifyToken
        (String.mk ((splitOnChar ' ' ((event.headers.lookup "Authorization").getD "").data).getD
          1 [])) = none →
      handler env st event =
        (create_response 401 [("error", JVal.jstr "Invalid or expired token")], st)) := by
  constructor
  · intro hfmt
    have hred : ∀ e : Env, handler e st event =
        (create_response 401 [("error", JVal.jstr "Missing or invalid authorization header")], st) := by
      intro e
      simp only [handler]
      rw [if_neg hm, if_neg (by rw [hfmt]; exact Bool.false_ne_true)]
    exact ⟨hred env, (hred env).trans (hred env').symm⟩
  · intro hfmt hver
    simp only [handler]
    rw [if_neg hm, if_pos hfmt, hver]

/-- Claim C9 (amended): every OPTIONS request, regardless of
credentials or body, is answered with status 200 and the fixed body
carrying the field `message = OK` (the body is not empty), leaving the store
untouched. -/
theorem options_unconditional (env : Env) (st : Store) (event : Event)
    (h : event.httpMethod = "OPTIONS") :
    handler env st event = (create_response 200 [("message", JVal.jstr "OK")], st) := by
  simp [handler, h]

/-- Claim C10: an authenticated non-OPTIONS request whose parsed JSON
body has no `operation` field is dispatched to `handle_get_upload_url`
(the `body.get` default), not rejected as an invalid operation. -/
theorem default_operation_dispatch (env : Env) (st : Store) (event : Event)
    (b : ReqBody) (user_id : String)
    (hm : event.httpMethod ≠ "OPTIONS")
    (hauth : pyStartsWith ((event.headers.lookup "Authorization").getD "") "Bearer " = true)
    (hver : env.verifyToken
      (String.mk ((splitOnChar ' ' ((event.headers.lookup "Authorization").getD "").data).getD
        1 [])) = some user_id)
    (hbody : event.body = BodyParse.parsed b)
    (hop : b.operation = none) :
    handler env st event = handle_get_upload_url env st b user_id := by
  simp only [handler]
  rw [if_neg hm, if_pos hauth, hver, hbody]
  obtain ⟨op, fi, md, fid⟩ := b
  have hop' : op = none := hop
  subst hop'
  rfl

/-! ### Witnesses -/

/-- Claim C3 witness: on a concrete store holding an item owned by
`"u1"` under key `("f9", "u1")`, the theorem applies and yields that the
item a lookup under `"u1"` returns belongs to `"u1"` and not to `"u2"`. -/
theorem owner_isolation_check : itemW.user_id = "u1" ∧ itemW.user_id ≠ "u2" :=
  (owner_isolation envOk [itemW] bodyDl "u1" "u2" (by decide)).1 "f9" itemW (by decide)

/-- Claim C4 witness: with an environment whose URL issuer fails, the
concrete upload request is answered 500 and the (empty) store stays
empty; with an environment whose metadata store fails after URL
issuance, the concrete request is answered with the storage 500. -/
theorem request_upload_two_step_check :
    handle_get_upload_url envNoUrl [] bodyUp "u1" =
      (create_response 500 [("error", JVal.jstr "Failed to generate upload URL")], []) ∧
    (handle_get_upload_url envNoDb [] bodyUp "u1").1 =
      create_response 500 [("error", JVal.jstr "Failed to store file metadata")] := by
  constructor
  · exact (request_upload_two_step envNoUrl [] bodyUp "u1").1 (by decide) (by decide)
  · exact (request_upload_two_step envNoDb [] bodyUp "u1").2.1
      "https://s3.example/signed" (by decide) (by decide) (by decide)

/-- Claim C6 witness: a 200 MiB declaration triggers the size violation;
a 1024-byte `.jpg` declaration triggers neither the size nor any type
violation. -/
theorem validate_size_rule_check :
    sizeErrMsg ∈ validate_file ⟨some "big.jpg", some (200 * 1024 * 1024), none⟩ ∧
    sizeErrMsg ∉ validate_file ⟨some "photo.jpg", some 1024, none⟩ ∧
    typeErrMsg ".exe" ∉ validate_file ⟨some "photo.jpg", some 1024, none⟩ := by
  refine ⟨(validate_size_rule "big.jpg" (200 * 1024 * 1024) none).1 (by decide), ?_, ?_⟩
  · exact ((validate_size_rule "photo.jpg" 1024 none).2 (by decide) (by decide)).1
  · exact ((validate_size_rule "photo.jpg" 1024 none).2 (by decide) (by decide)).2 ".exe"

/-- Claim C7 witness: `virus.exe` triggers the type violation at a small
size, and at an oversized declaration both the size and the type
violations appear together. -/
theorem validate_type_rule_check :
    typeErrMsg (pyLower (splitextExt "virus.exe")) ∈
      validate_file ⟨some "virus.exe", some 10, none⟩ ∧
    sizeErrMsg ∈ validate_file ⟨some "virus.exe", some (200 * 1024 * 1024), none⟩ ∧
    typeErrMsg (pyLower (splitextExt "virus.exe")) ∈
      validate_file ⟨some "virus.exe", some (200 * 1024 * 1024), none⟩ := by
  refine ⟨(validate_type_rule "virus.exe" 10 none (by decide)).1, ?_, ?_⟩
  · exact ((validate_type_rule "virus.exe" (200 * 1024 * 1024) none (by decide)).2
      (by decide)).1
  · exact ((validate_type_rule "virus.exe" (200 * 1024 * 1024) none (by decide)).2
      (by decide)).2

/-- Claim C8 witness: a concrete request with scheme `Token` is answered
the format 401, and a concrete `Bearer` request whose token the
collaborator rejects is answered the uniform invalid-token 401. -/
theorem auth_gate_check :
    handler envOk [] evBadAuth =
      (create_response 401 [("error", JVal.jstr "Missing or invalid authorization header")], []) ∧
    handler envOk [] evBadToken =
      (create_response 401 [("error", JVal.jstr "Invalid or expired token")], []) := by
  constructor
  · exact ((auth_gate envOk envNoDb [] evBadAuth (by decide)).1 (by decide)).1
  · exact (auth_gate envOk envNoDb [] evBadToken (by decide)).2 (by decide) (by decide)

/-- Claim C9 witness: a concrete OPTIONS request carrying a garbage
credential and an unparseable body is still answered 200 with the fixed
OK body. -/
theorem options_unconditional_check :
    handler envOk [] evOptionsGarbage = (create_response 200 [("message", JVal.jstr "OK")], []) :=
  options_unconditional envOk [] evOptionsGarbage rfl

/-- Claim C10 witness: a concrete authenticated request whose body has
no `operation` key is handled exactly as a `get_upload_url` request. -/
theorem default_operation_dispatch_check :
    handler envOk [] evNoOp = handle_get_upload_url envOk [] bodyUp "u1" :=
  default_operation_dispatch envOk [] evNoOp bodyUp "u1" (by decide) (by decide) (by decide)
    rfl rfl

end Upload
